import Mathlib

/-!
Verification of the snapshot-diff and alerting engine of the movie-dashboard
repository (`main.py`).  The Python source is shallowly embedded: pure helpers
become Lean functions, the SQLite tables become lists of row records with
`INSERT OR REPLACE` modelled as delete-matching-key-then-append, network fetches
become explicit outcome values fed to the adapter functions, and calendar dates
become integers counting days (the ISO date strings used as SQL keys are in
order- and equality-preserving bijection with day numbers, which is all the
code uses).
-/

namespace MovieDash

/-- Python whitespace class `\s` (the characters relevant here). -/
def isSpaceChar (c : Char) : Bool :=
  c = ' ' || c = '\t' || c = '\n' || c = '\r' || c = '\x0b' || c = '\x0c'

/-- Python `str.lower()`, restricted to ASCII plus the uppercase accented
letters that the catalog data and `norm_title_key` character class involve. -/
def pyLower (c : Char) : Char :=
  if c = 'Á' then 'á' else if c = 'É' then 'é'
  else if c = 'Í' then 'í' else if c = 'Ó' then 'ó'
  else if c = 'Ú' then 'ú' else if c = 'Ñ' then 'ñ'
  else if c = 'Ü' then 'ü' else c.toLower

/-- Python `str.strip()` on a character list. -/
def pyStripL (l : List Char) : List Char :=
  ((l.dropWhile isSpaceChar).reverse.dropWhile isSpaceChar).reverse

/-- Python `str.strip()`. -/
def pyStrip (s : String) : String := ⟨pyStripL s.data⟩

/-- `re.sub(r"\s+", " ", t)`: every maximal whitespace run becomes one space.
The boolean argument records whether the previous character was whitespace. -/
def collapseWsAux : Bool → List Char → List Char
  | _, [] => []
  | prevSpace, c :: cs =>
    if isSpaceChar c then
      if prevSpace then collapseWsAux true cs
      else ' ' :: collapseWsAux true cs
    else c :: collapseWsAux false cs

/-- Character class kept by `re.sub(r"[^\w\sáéíóúñü]", "", t)` in
`norm_title_key` (`main.py` line 249): word characters (`\w`, restricted here
to ASCII alphanumerics, underscore and the listed accented Latin letters),
whitespace, and the accented vowels / ñ / ü. -/
def isKept (c : Char) : Bool :=
  c.isAlphanum || c = '_' || isSpaceChar c ||
  c = 'á' || c = 'é' || c = 'í' || c = 'ó' || c = 'ú' || c = 'ñ' || c = 'ü'

/-- `norm_title_key` (`main.py` lines 245-250): strip, lowercase, collapse
whitespace runs to single spaces, then drop characters outside `isKept`. -/
def norm_title_key (s : String) : String :=
  ⟨(collapseWsAux false ((pyStripL s.data).map pyLower)).filter isKept⟩

/-- Diacritic folding as the spec describes it (á→a, …, ñ→n, ü→u). -/
def foldDiacritic (c : Char) : Char :=
  if c = 'á' then 'a' else if c = 'é' then 'e'
  else if c = 'í' then 'i' else if c = 'ó' then 'o'
  else if c = 'ú' then 'u' else if c = 'ü' then 'u'
  else if c = 'ñ' then 'n' else c

/-- Modelled from the spec: "a normalized lowercase form of the display title
with diacritics folded and non-alphanumerics stripped" — this definition
follows the spec's words (for comparison against `norm_title_key`, the
definition taken from the source). -/
def spec_title_key (s : String) : String :=
  ⟨(s.data.map (fun c => foldDiacritic (pyLower c))).filter Char.isAlphanum⟩

/-- Digit grouping on a reversed digit list, fuel-recursive so that it
reduces inside the kernel; the fuel is the list length, always sufficient. -/
def groupRevGo : Nat → List Char → List Char
  | _, [] => []
  | 0, l => l
  | fuel + 1, c :: cs =>
    if cs.length ≤ 2 then c :: cs
    else (c :: cs).take 3 ++ '.' :: groupRevGo fuel ((c :: cs).drop 3)

/-- Digit grouping on a reversed digit list: groups of three separated by a
dot, mirroring Python `f"{n:,}"` followed by `.replace(",", ".")`. -/
def groupRev (l : List Char) : List Char :=
  groupRevGo l.length l

/-- Thousands-separated rendering of a natural number. -/
def fmtNat (n : Nat) : String :=
  ⟨(groupRev (toString n).data.reverse).reverse⟩

/-- `fmt_int` (`main.py` lines 282-288): em dash for an absent value, else the
integer with dots as thousands separators. -/
def fmt_int (x : Option Int) : String :=
  match x with
  | none => "—"
  | some n => if n < 0 then "-" ++ fmtNat n.natAbs else fmtNat n.toNat

/-- Dashboard window configuration (`main.py` lines 42-43). -/
def PAST_DAYS : Int := 30

def FUTURE_DAYS : Int := 30

/-- Alert thresholds (`main.py` lines 46-50). -/
def ALERT_VIEWS_CHANGE_24H : Int := 2000

def ALERT_LIKES_CHANGE_24H : Int := 150

def ALERT_COMMENTS_CHANGE_24H : Int := 50

def ALERT_X_POSTS_CHANGE_24H : Int := 30

def ALERT_X_ENG_CHANGE_24H : Int := 150

/-! URL classification helpers (`main.py` lines 314-356). -/

/-- `a.startsWithL b`: the list `b` is an initial segment of `a`. -/
def startsWithL : List Char → List Char → Bool
  | _, [] => true
  | [], _ :: _ => false
  | a :: as, b :: bs => a = b && startsWithL as bs

/-- Substring containment test (Python `in` on strings). -/
def containsSub : List Char → List Char → Bool
  | [], pat => pat.isEmpty
  | a :: rest, pat => startsWithL (a :: rest) pat || containsSub rest pat

/-- String splitting on a separator, fuel-recursive so that it reduces inside
the kernel (the fuel is the list length, always sufficient); same semantics
as Python `str.split(sep)` for a non-empty separator. -/
def splitOnGo (sep : List Char) : Nat → List Char → List Char → List (List Char)
  | _, [], acc => [acc.reverse]
  | 0, rest, acc => [acc.reverse ++ rest]
  | fuel + 1, c :: cs, acc =>
    if startsWithL (c :: cs) sep then
      acc.reverse :: splitOnGo sep fuel ((c :: cs).drop sep.length) []
    else
      splitOnGo sep fuel cs (c :: acc)

/-- Split a string on a separator, as a list of strings. -/
def strSplit (s sep : String) : List String :=
  if sep.data.isEmpty then [s]
  else (splitOnGo sep.data s.data.length s.data []).map (fun l => ⟨l⟩)

/-- Python `sub in s` for strings. -/
def strContains (s sub : String) : Bool := containsSub s.data sub.data

/-- Python `str.lower()` over a whole string. -/
def lowerStr (s : String) : String := ⟨s.data.map pyLower⟩

/-- `is_youtube` (`main.py` lines 314-316). -/
def is_youtube (url : String) : Bool :=
  strContains (lowerStr url) "youtube.com" || strContains (lowerStr url) "youtu.be"

/-- `is_vimeo` (`main.py` lines 319-321). -/
def is_vimeo (url : String) : Bool :=
  strContains (lowerStr url) "vimeo.com"

/-- The query component of a URL: everything after the first `?`
(restriction of `urlparse(u).query` to the URLs in scope, which carry no
fragment). -/
def urlQuery (u : String) : String :=
  match strSplit u "?" with
  | _ :: q :: _ => q
  | _ => ""

/-- `parse_qs(q)[k][0]`: first value bound to key `k` in a query string;
`parse_qs` drops blank values (`keep_blank_values` defaults to false), so a
bare `v=` contributes nothing. -/
def queryParam (q : String) (k : String) : Option String :=
  ((strSplit q "&").filterMap (fun kv =>
    match strSplit kv "=" with
    | key :: v :: _ => if key = k && v ≠ "" then some v else none
    | _ => none)).head?

/-- `youtube_video_id` (`main.py` lines 324-340): youtu.be short links take
the path segment after `youtu.be/`; youtube.com links take the `v` query
parameter, falling back to the segment after `/shorts/`. -/
def youtube_video_id (url : String) : Option String :=
  let u := pyStrip url
  if u = "" then none
  else if strContains u "youtu.be/" then
    match strSplit u "youtu.be/" with
    | _ :: rest :: _ => some (((strSplit ((strSplit rest "?").headD "") "/").headD ""))
    | _ => none
  else if strContains u "youtube.com" then
    match queryParam (urlQuery u) "v" with
    | some v => some v
    | none =>
      let path := (strSplit u "?").headD ""
      if strContains path "/shorts/" then
        match strSplit path "/shorts/" with
        | _ :: rest :: _ => some ((strSplit rest "/").headD "")
        | _ => none
      else none
  else none

/-- `vimeo_id` (`main.py` lines 343-356): require `vimeo.com` in the netloc,
then return the last all-digit path segment. -/
def vimeo_id (url : String) : Option String :=
  let u := pyStrip url
  match strSplit u "://" with
  | _ :: rest :: _ =>
    let noQuery := (strSplit rest "?").headD ""
    match strSplit noQuery "/" with
    | netloc :: segs =>
      if strContains (lowerStr netloc) "vimeo.com" then
        (segs.filter (fun s => !s.isEmpty)).reverse.find?
          (fun s => s.data.all Char.isDigit)
      else none
    | [] => none
  | _ => none

/-! ## Metric source adapters (`main.py` lines 483-569)

Each network fetch is abstracted into an explicit outcome value: a successful
HTTP+JSON exchange carries the already-extracted fields (the `to_int_any`
parsing of the raw API strings), and a Python exception raised inside the
adapter's `try` block is the `raised` case carrying `str(e)`. -/

/-- Trailer adapter result record (`{"views":…, "likes":…, "comments":…,
"err":…}`). -/
structure TrailerStats where
  views : Option Int
  likes : Option Int
  comments : Option Int
  err : Option String
deriving DecidableEq, Repr

/-- X adapter result record (`{"posts_7d":…, "eng_7d":…, "err":…}`). -/
structure XStats where
  posts_7d : Option Int
  eng_7d : Option Int
  err : Option String
deriving DecidableEq, Repr

/-- Outcome of the YouTube API exchange inside `youtube_stats`'s `try`. -/
inductive YtOutcome where
  | raised (e : String)
  | noItems
  | stats (views likes comments : Option Int)
deriving DecidableEq, Repr

/-- Outcome of the Vimeo page fetch inside `vimeo_stats`'s `try`; the `page`
case carries the likes/comments counts the regular-expression scrape finds. -/
inductive VimeoOutcome where
  | raised (e : String)
  | page (likes comments : Option Int)
deriving DecidableEq, Repr

/-- `public_metrics` of one tweet. -/
structure Tweet where
  like_count : Int
  reply_count : Int
  retweet_count : Int
  quote_count : Int
deriving DecidableEq, Repr

/-- Outcome of the X recent-search exchange inside `x_metrics`'s `try`;
`noData` carries the error message picked from the response body. -/
inductive XOutcome where
  | raised (e : String)
  | noData (msg : String)
  | tweets (ts : List Tweet)
deriving DecidableEq, Repr

/-- Python falsiness of an optional credential string (`not KEY` is true for
both an unset variable and an empty one). -/
def optFalsy : Option String → Bool
  | none => true
  | some s => s.isEmpty

/-- `youtube_stats` (`main.py` lines 483-507); `if not vid:` at line 488 is
Python falsiness, true for a missing and for an empty-string video id alike,
so both yield `err = "no_video_id"` before any request is attempted. -/
def youtube_stats (apiKey : Option String) (url : String) (o : YtOutcome) :
    TrailerStats :=
  if url = "" || !is_youtube url || optFalsy apiKey then ⟨none, none, none, none⟩
  else if optFalsy (youtube_video_id url) then ⟨none, none, none, some "no_video_id"⟩
  else
    match o with
    | .raised e => ⟨none, none, none, some e⟩
    | .noItems => ⟨none, none, none, some "not_found"⟩
    | .stats v l c => ⟨v, l, c, none⟩

/-- `vimeo_stats` (`main.py` lines 510-532); views are never populated. -/
def vimeo_stats (url : String) (o : VimeoOutcome) : TrailerStats :=
  if url = "" || !is_vimeo url || (vimeo_id url).isNone then ⟨none, none, none, none⟩
  else
    match o with
    | .raised e => ⟨none, none, none, some e⟩
    | .page l c => ⟨none, l, c, none⟩

/-- Engagement contributed by one tweet (`main.py` lines 561-565). -/
def tweetEng (t : Tweet) : Int :=
  t.like_count + t.reply_count + t.retweet_count + t.quote_count

/-- `x_metrics` (`main.py` lines 538-569); `title` only shapes the network
query, which the outcome value abstracts. -/
def x_metrics (bearer : Option String) (title : String) (o : XOutcome) : XStats :=
  if optFalsy bearer then ⟨none, none, none⟩
  else
    match o with
    | .raised e => ⟨none, none, some e⟩
    | .noData msg => ⟨none, none, some msg⟩
    | .tweets ts =>
      ⟨some ts.length, some (ts.foldl (fun acc t => acc + tweetEng t) 0), none⟩

/-! ## Snapshot store (`main.py` lines 127-191 and 683-722)

The two SQLite tables become lists of row records.  `INSERT OR REPLACE` on a
table with a primary key deletes any row carrying the same key tuple and
inserts the new one; row order inside the table is not observable through the
queries the program issues, so delete-then-append is a faithful model. -/

/-- One `trailer_daily` row (primary key `(date, title_key, trailer_url)`). -/
structure TrailerRow where
  date : Int
  title_key : String
  trailer_url : String
  platform : String
  views : Option Int
  likes : Option Int
  comments : Option Int
  err : Option String
deriving DecidableEq, Repr

/-- One `x_daily` row (primary key `(date, title_key)`). -/
structure XRow where
  date : Int
  title_key : String
  title : String
  posts_7d : Option Int
  eng_7d : Option Int
  err : Option String
deriving DecidableEq, Repr

/-- The database: both snapshot tables. -/
structure DB where
  trailer : List TrailerRow
  x : List XRow
deriving DecidableEq, Repr

/-- Primary key of a `trailer_daily` row. -/
def trailerKey (r : TrailerRow) : Int × String × String :=
  (r.date, r.title_key, r.trailer_url)

/-- Primary key of an `x_daily` row. -/
def xKey (r : XRow) : Int × String :=
  (r.date, r.title_key)

/-- `upsert_trailer_daily` (`main.py` lines 683-689). -/
def upsert_trailer_daily (db : DB) (row : TrailerRow) : DB :=
  { db with trailer :=
      (db.trailer.filter (fun s => decide (trailerKey s ≠ trailerKey row))) ++ [row] }

/-- `upsert_x_daily` (`main.py` lines 704-710). -/
def upsert_x_daily (db : DB) (row : XRow) : DB :=
  { db with x :=
      (db.x.filter (fun s => decide (xKey s ≠ xKey row))) ++ [row] }

/-- The `SELECT views, likes, comments` projection returned by
`get_trailer_yesterday`. -/
structure YTrailer where
  views : Option Int
  likes : Option Int
  comments : Option Int
deriving DecidableEq, Repr

/-- `get_trailer_yesterday` (`main.py` lines 692-701): exact-key lookup at
yesterday's date. -/
def get_trailer_yesterday (db : DB) (today : Int) (tk turl : String) :
    Option YTrailer :=
  (db.trailer.find? (fun r =>
      decide (r.date = today - 1 ∧ r.title_key = tk ∧ r.trailer_url = turl))).map
    (fun r => ⟨r.views, r.likes, r.comments⟩)

/-- The `SELECT posts_7d, eng_7d` projection returned by `get_x_yesterday`. -/
structure YX where
  posts_7d : Option Int
  eng_7d : Option Int
deriving DecidableEq, Repr

/-- `get_x_yesterday` (`main.py` lines 713-722). -/
def get_x_yesterday (db : DB) (today : Int) (tk : String) : Option YX :=
  (db.x.find? (fun r => decide (r.date = today - 1 ∧ r.title_key = tk))).map
    (fun r => ⟨r.posts_7d, r.eng_7d⟩)

/-! ## Delta engine (`main.py` lines 984-1004) -/

/-- The three trailer 24-hour deltas (`main.py` lines 985-992): absent unless
yesterday's row exists and both operands are present. -/
def trailer_deltas (stats : TrailerStats) (y : Option YTrailer) :
    Option Int × Option Int × Option Int :=
  match y with
  | none => (none, none, none)
  | some yr =>
    (match stats.views, yr.views with
     | some a, some b => some (a - b)
     | _, _ => none,
     match stats.likes, yr.likes with
     | some a, some b => some (a - b)
     | _, _ => none,
     match stats.comments, yr.comments with
     | some a, some b => some (a - b)
     | _, _ => none)

/-- The two X 24-hour deltas (`main.py` lines 999-1004). -/
def x_deltas (xm : XStats) (xy : Option YX) : Option Int × Option Int :=
  match xy with
  | none => (none, none)
  | some yr =>
    (match xm.posts_7d, yr.posts_7d with
     | some a, some b => some (a - b)
     | _, _ => none,
     match xm.eng_7d, yr.eng_7d with
     | some a, some b => some (a - b)
     | _, _ => none)

/-! ## Alert evaluator (`main.py` lines 1007-1017)

Each `if delta is not None and delta >= THRESHOLD: reasons.append(...)` step
contributes a zero-or-one element block; `reasons` is their concatenation in
the fixed source order. -/

/-- Views alert step (`main.py` lines 1008-1009). -/
def views_alert_block (vc : Option Int) : List String :=
  match vc with
  | some d =>
    if d ≥ ALERT_VIEWS_CHANGE_24H then
      ["Suba fuerte de vistas (24 h): " ++ fmt_int (some d)]
    else []
  | none => []

/-- Likes alert step (`main.py` lines 1010-1011). -/
def likes_alert_block (lc : Option Int) : List String :=
  match lc with
  | some d =>
    if d ≥ ALERT_LIKES_CHANGE_24H then
      ["Suba fuerte de me gusta (24 h): " ++ fmt_int (some d)]
    else []
  | none => []

/-- Comments alert step (`main.py` lines 1012-1013). -/
def comments_alert_block (cc : Option Int) : List String :=
  match cc with
  | some d =>
    if d ≥ ALERT_COMMENTS_CHANGE_24H then
      ["Suba fuerte de comentarios (24 h): " ++ fmt_int (some d)]
    else []
  | none => []

/-- X-posts alert step (`main.py` lines 1014-1015). -/
def x_posts_alert_block (pc : Option Int) : List String :=
  match pc with
  | some d =>
    if d ≥ ALERT_X_POSTS_CHANGE_24H then
      ["Más conversación en X (24 h): " ++ fmt_int (some d)]
    else []
  | none => []

/-- X-engagement alert step (`main.py` lines 1016-1017). -/
def x_eng_alert_block (ec : Option Int) : List String :=
  match ec with
  | some d =>
    if d ≥ ALERT_X_ENG_CHANGE_24H then
      ["Más interacción en X (24 h): " ++ fmt_int (some d)]
    else []
  | none => []

/-- The full reason list (`main.py` lines 1007-1017). -/
def alert_reasons (vc lc cc pc ec : Option Int) : List String :=
  views_alert_block vc ++ likes_alert_block lc ++ comments_alert_block cc ++
    x_posts_alert_block pc ++ x_eng_alert_block ec

/-- `mm["has_alert"] = bool(reasons)` (`main.py` line 1031). -/
def has_alert (vc lc cc pc ec : Option Int) : Bool :=
  !(alert_reasons vc lc cc pc ec).isEmpty

/-- `mm["alert_reason"] = " · ".join(reasons) if reasons else None`
(`main.py` line 1032). -/
def alert_reason_joined (vc lc cc pc ec : Option Int) : Option String :=
  if (alert_reasons vc lc cc pc ec).isEmpty then none
  else some (String.intercalate " · " (alert_reasons vc lc cc pc ec))

/-! ## Catalog window filter (`main.py` lines 408-440) -/

/-- One movie of the `movies` list built by `load_catalog` (the redundant
`release_date_str` ISO rendering of `release_date` is omitted; dates are day
numbers). -/
structure Movie where
  title : String
  title_key : String
  release_date : Int
  trailer_url : String
deriving DecidableEq, Repr

/-- One raw catalog CSV row, restricted to the three columns the filter reads;
`date` is the result of `parse_date_to_date` on the date cell (`none` when
unparseable — date-format heuristics are outside the verified core). -/
structure CatRow where
  title : String
  date : Option Int
  trailer : String
deriving DecidableEq, Repr

/-- Accumulated state of the `load_catalog` row loop: movies kept so far and
the `seen` set of title keys. -/
structure CatState where
  movies : List Movie
  seen : List String
deriving DecidableEq, Repr

/-- The window test `start_window <= d <= end_window` with
`start_window = today - PAST_DAYS`, `end_window = today + FUTURE_DAYS`
(`main.py` lines 409-410 and 422). -/
def window_ok (today d : Int) : Bool :=
  decide (today - PAST_DAYS ≤ d) && decide (d ≤ today + FUTURE_DAYS)

/-- One iteration of the `load_catalog` row loop (`main.py` lines 415-436). -/
def catalog_step (today : Int) (st : CatState) (r : CatRow) : CatState :=
  let title := pyStrip r.title
  if title = "" then st
  else
    match r.date with
    | none => st
    | some d =>
      if !window_ok today d then st
      else
        let k := norm_title_key title
        if k ∈ st.seen then st
        else ⟨st.movies ++ [⟨title, k, d, pyStrip r.trailer⟩], st.seen ++ [k]⟩

/-- The whole `load_catalog` filter loop over the concatenated CSV rows. -/
def load_catalog_movies (today : Int) (rows : List CatRow) : List Movie :=
  (rows.foldl (catalog_step today) ⟨[], []⟩).movies

/-! ## Main run loop (`main.py` lines 944-1046) -/

/-- The two optional credentials read from `config.env` (`main.py`
lines 85-86). -/
structure Config where
  youtube_api_key : Option String
  x_bearer_token : Option String
deriving DecidableEq, Repr

/-- The fetch outcomes destiny hands one title's adapters on this run. -/
structure Outcomes where
  yt : YtOutcome
  vimeo : VimeoOutcome
  x : XOutcome
deriving DecidableEq, Repr

/-- The per-title record `mm` assembled at `main.py` lines 1019-1032 (minus
the catalog passthrough `release_date_str`). -/
structure Enriched where
  title : String
  title_key : String
  release_date : Int
  trailer_url : String
  trailer_platform : String
  views : Option Int
  likes : Option Int
  comments : Option Int
  views_change_24h : Option Int
  likes_change_24h : Option Int
  comments_change_24h : Option Int
  x_posts_7d : Option Int
  x_eng_7d : Option Int
  x_posts_change_24h : Option Int
  x_eng_change_24h : Option Int
  has_alert : Bool
  alert_reason : Option String
deriving DecidableEq, Repr

/-- The dictionary keys of the per-title record `mm` built in `main`
(`main.py` lines 430-436 for the catalog fields, 1019-1032 for the rest), in
insertion order. -/
def enriched_record_fields : List String :=
  ["title", "title_key", "release_date", "release_date_str", "trailer_url",
   "trailer_platform", "views", "likes", "comments",
   "views_change_24h", "likes_change_24h", "comments_change_24h",
   "x_posts_7d", "x_eng_7d", "x_posts_change_24h", "x_eng_change_24h",
   "has_alert", "alert_reason"]

/-- The body of the per-movie loop of `main` (`main.py` lines 956-1034):
fetch trailer stats, upsert today's trailer row, diff against yesterday,
fetch X stats, upsert today's X row, diff against yesterday, evaluate alerts,
and assemble the report record. -/
def process_movie (cfg : Config) (today : Int) (db : DB) (m : Movie)
    (o : Outcomes) : DB × Enriched :=
  let turl := pyStrip m.trailer_url
  let sp : TrailerStats × String :=
    if is_youtube turl then (youtube_stats cfg.youtube_api_key turl o.yt, "YouTube")
    else if is_vimeo turl then (vimeo_stats turl o.vimeo, "Vimeo")
    else if turl ≠ "" then (⟨none, none, none, none⟩, "Link")
    else (⟨none, none, none, none⟩, "—")
  let stats := sp.1
  let platform := sp.2
  let db1 := upsert_trailer_daily db
    ⟨today, m.title_key, turl, lowerStr platform,
     stats.views, stats.likes, stats.comments, stats.err⟩
  let y := get_trailer_yesterday db1 today m.title_key turl
  let td := trailer_deltas stats y
  let xm := x_metrics cfg.x_bearer_token m.title o.x
  let db2 := upsert_x_daily db1
    ⟨today, m.title_key, m.title, xm.posts_7d, xm.eng_7d, xm.err⟩
  let xy := get_x_yesterday db2 today m.title_key
  let xd := x_deltas xm xy
  (db2,
   { title := m.title
     title_key := m.title_key
     release_date := m.release_date
     trailer_url := m.trailer_url
     trailer_platform := platform
     views := stats.views
     likes := stats.likes
     comments := stats.comments
     views_change_24h := td.1
     likes_change_24h := td.2.1
     comments_change_24h := td.2.2
     x_posts_7d := xm.posts_7d
     x_eng_7d := xm.eng_7d
     x_posts_change_24h := xd.1
     x_eng_change_24h := xd.2
     has_alert := has_alert td.1 td.2.1 td.2.2 xd.1 xd.2
     alert_reason := alert_reason_joined td.1 td.2.1 td.2.2 xd.1 xd.2 })

/-- The whole per-movie loop of `main`, each movie paired with its adapter
outcomes; returns the final database and the `enriched` list. -/
def run_main (cfg : Config) (today : Int) (inputs : List (Movie × Outcomes))
    (db : DB) : DB × List Enriched :=
  inputs.foldl
    (fun acc mo =>
      let r := process_movie cfg today acc.1 mo.1 mo.2
      (r.1, acc.2 ++ [r.2]))
    (db, [])

/-! ## Theorems -/

/-- C1: For every metric (views, likes, comments, posts_7d, eng_7d), the
24-hour delta is defined exactly when both today's value and the reference
(yesterday's) value are present integers, in which case it equals today minus
reference (a signed integer that may be negative); if either operand is
absent, the delta is absent — it is never defaulted to 0. -/
theorem delta24h_defined_iff_both_present (stats : TrailerStats)
    (y : Option YTrailer) (xm : XStats) (xy : Option YX) (d : Int) :
    ((trailer_deltas stats y).1 = some d ↔
      ∃ a b, stats.views = some a ∧ y.bind YTrailer.views = some b ∧ d = a - b) ∧
    ((trailer_deltas stats y).2.1 = some d ↔
      ∃ a b, stats.likes = some a ∧ y.bind YTrailer.likes = some b ∧ d = a - b) ∧
    ((trailer_deltas stats y).2.2 = some d ↔
      ∃ a b, stats.comments = some a ∧ y.bind YTrailer.comments = some b ∧ d = a - b) ∧
    ((x_deltas xm xy).1 = some d ↔
      ∃ a b, xm.posts_7d = some a ∧ xy.bind YX.posts_7d = some b ∧ d = a - b) ∧
    ((x_deltas xm xy).2 = some d ↔
      ∃ a b, xm.eng_7d = some a ∧ xy.bind YX.eng_7d = some b ∧ d = a - b) := by
  obtain ⟨v, l, c, e⟩ := stats
  obtain ⟨p, g, xe⟩ := xm
  refine ⟨?_, ?_, ?_, ?_, ?_⟩
  · cases y with
    | none => simp [trailer_deltas]
    | some yr =>
      cases v <;> cases hy : yr.views <;>
        simp [trailer_deltas, hy, eq_comm, sub_eq_iff_eq_add, eq_sub_iff_add_eq]
  · cases y with
    | none => simp [trailer_deltas]
    | some yr =>
      cases l <;> cases hy : yr.likes <;>
        simp [trailer_deltas, hy, eq_comm, sub_eq_iff_eq_add, eq_sub_iff_add_eq]
  · cases y with
    | none => simp [trailer_deltas]
    | some yr =>
      cases c <;> cases hy : yr.comments <;>
        simp [trailer_deltas, hy, eq_comm, sub_eq_iff_eq_add, eq_sub_iff_add_eq]
  · cases xy with
    | none => simp [x_deltas]
    | some yr =>
      cases p <;> cases hy : yr.posts_7d <;>
        simp [x_deltas, hy, eq_comm, sub_eq_iff_eq_add, eq_sub_iff_add_eq]
  · cases xy with
    | none => simp [x_deltas]
    | some yr =>
      cases g <;> cases hy : yr.eng_7d <;>
        simp [x_deltas, hy, eq_comm, sub_eq_iff_eq_add, eq_sub_iff_add_eq]

/-- C2: For every computed 24-hour delta and its configured threshold
({views: 2000, likes: 150, comments: 50, social_posts: 30,
social_engagement: 150}), a reason string is emitted if and only if the delta
is present and greater than or equal to the threshold; a delta exactly equal
to the threshold triggers the alert and a delta one below it does not, and
has_alert is true exactly when at least one reason was emitted. -/
theorem alert_reason_iff_threshold (vc lc cc pc ec : Option Int) :
    ((views_alert_block vc ≠ []) ↔ ∃ d, vc = some d ∧ d ≥ ALERT_VIEWS_CHANGE_24H) ∧
    ((likes_alert_block lc ≠ []) ↔ ∃ d, lc = some d ∧ d ≥ ALERT_LIKES_CHANGE_24H) ∧
    ((comments_alert_block cc ≠ []) ↔ ∃ d, cc = some d ∧ d ≥ ALERT_COMMENTS_CHANGE_24H) ∧
    ((x_posts_alert_block pc ≠ []) ↔ ∃ d, pc = some d ∧ d ≥ ALERT_X_POSTS_CHANGE_24H) ∧
    ((x_eng_alert_block ec ≠ []) ↔ ∃ d, ec = some d ∧ d ≥ ALERT_X_ENG_CHANGE_24H) ∧
    (has_alert vc lc cc pc ec = true ↔ alert_reasons vc lc cc pc ec ≠ []) ∧
    (has_alert vc lc cc pc ec = true ↔
      ((∃ d, vc = some d ∧ d ≥ ALERT_VIEWS_CHANGE_24H) ∨
       (∃ d, lc = some d ∧ d ≥ ALERT_LIKES_CHANGE_24H) ∨
       (∃ d, cc = some d ∧ d ≥ ALERT_COMMENTS_CHANGE_24H) ∨
       (∃ d, pc = some d ∧ d ≥ ALERT_X_POSTS_CHANGE_24H) ∨
       (∃ d, ec = some d ∧ d ≥ ALERT_X_ENG_CHANGE_24H))) ∧
    (views_alert_block (some ALERT_VIEWS_CHANGE_24H) ≠ [] ∧
     views_alert_block (some (ALERT_VIEWS_CHANGE_24H - 1)) = []) := by
  have hv : (views_alert_block vc ≠ []) ↔
      ∃ d, vc = some d ∧ d ≥ ALERT_VIEWS_CHANGE_24H := by
    cases vc with
    | none => simp [views_alert_block]
    | some d => by_cases h : d ≥ ALERT_VIEWS_CHANGE_24H <;> simp [views_alert_block, h]
  have hl : (likes_alert_block lc ≠ []) ↔
      ∃ d, lc = some d ∧ d ≥ ALERT_LIKES_CHANGE_24H := by
    cases lc with
    | none => simp [likes_alert_block]
    | some d => by_cases h : d ≥ ALERT_LIKES_CHANGE_24H <;> simp [likes_alert_block, h]
  have hc : (comments_alert_block cc ≠ []) ↔
      ∃ d, cc = some d ∧ d ≥ ALERT_COMMENTS_CHANGE_24H := by
    cases cc with
    | none => simp [comments_alert_block]
    | some d => by_cases h : d ≥ ALERT_COMMENTS_CHANGE_24H <;> simp [comments_alert_block, h]
  have hp : (x_posts_alert_block pc ≠ []) ↔
      ∃ d, pc = some d ∧ d ≥ ALERT_X_POSTS_CHANGE_24H := by
    cases pc with
    | none => simp [x_posts_alert_block]
    | some d => by_cases h : d ≥ ALERT_X_POSTS_CHANGE_24H <;> simp [x_posts_alert_block, h]
  have he : (x_eng_alert_block ec ≠ []) ↔
      ∃ d, ec = some d ∧ d ≥ ALERT_X_ENG_CHANGE_24H := by
    cases ec with
    | none => simp [x_eng_alert_block]
    | some d => by_cases h : d ≥ ALERT_X_ENG_CHANGE_24H <;> simp [x_eng_alert_block, h]
  have hha : has_alert vc lc cc pc ec = true ↔ alert_reasons vc lc cc pc ec ≠ [] := by
    simp [has_alert, List.isEmpty_iff]
  have hne : alert_reasons vc lc cc pc ec ≠ [] ↔
      (views_alert_block vc ≠ [] ∨ likes_alert_block lc ≠ [] ∨
       comments_alert_block cc ≠ [] ∨ x_posts_alert_block pc ≠ [] ∨
       x_eng_alert_block ec ≠ []) := by
    clear hv hl hc hp he hha
    simp [alert_reasons, List.append_eq_nil]
    tauto
  refine ⟨hv, hl, hc, hp, he, hha, ?_, ?_, ?_⟩
  · rw [hha, hne, hv, hl, hc, hp, he]
  · decide
  · decide



/-- Filtering twice with the same predicate equals filtering once. -/
lemma filter_same_idem {α : Type} (p : α → Bool) (l : List α) :
    (l.filter p).filter p = l.filter p := by
  induction l with
  | nil => rfl
  | cons a t ih => by_cases h : p a <;> simp [List.filter_cons, h, ih]

/-- After deleting every row with key `k`, no row with key `k` remains. -/
lemma filter_eq_after_filter_ne {α κ : Type} [DecidableEq κ] (key : α → κ) (k : κ)
    (l : List α) :
    ((l.filter fun t => decide (key t ≠ k)).filter fun t => decide (key t = k)) = [] := by
  induction l with
  | nil => rfl
  | cons a t ih => by_cases h : key a = k <;> simp [List.filter_cons, h, ih]

/-- C3: Upserting a snapshot row is last-write-wins on its key tuple: calling
upsert twice with the same key (date, title_key, trailer_url for trailer
rows; date, title_key for social rows) and the same payload leaves the store
in an identical observable state, and calling it twice with different
payloads leaves exactly one row for that key holding the latest payload,
never a duplicate row. -/
theorem upsert_last_write_wins (db : DB) (r r1 r2 : TrailerRow) (s s1 s2 : XRow) :
    (upsert_trailer_daily (upsert_trailer_daily db r) r = upsert_trailer_daily db r) ∧
    (trailerKey r1 = trailerKey r2 →
      upsert_trailer_daily (upsert_trailer_daily db r1) r2 = upsert_trailer_daily db r2 ∧
      ((upsert_trailer_daily (upsert_trailer_daily db r1) r2).trailer.filter
        fun t => decide (trailerKey t = trailerKey r2)) = [r2]) ∧
    (upsert_x_daily (upsert_x_daily db s) s = upsert_x_daily db s) ∧
    (xKey s1 = xKey s2 →
      upsert_x_daily (upsert_x_daily db s1) s2 = upsert_x_daily db s2 ∧
      ((upsert_x_daily (upsert_x_daily db s1) s2).x.filter
        fun t => decide (xKey t = xKey s2)) = [s2]) := by
  refine ⟨?_, fun h => ⟨?_, ?_⟩, ?_, fun h => ⟨?_, ?_⟩⟩
  · simp [upsert_trailer_daily, List.filter_append, filter_same_idem, List.filter_cons]
  · simp [upsert_trailer_daily, List.filter_append, h, filter_same_idem, List.filter_cons]
  · simp [upsert_trailer_daily, List.filter_append, h, filter_eq_after_filter_ne,
      List.filter_cons]
  · simp [upsert_x_daily, List.filter_append, filter_same_idem, List.filter_cons]
  · simp [upsert_x_daily, List.filter_append, h, filter_same_idem, List.filter_cons]
  · simp [upsert_x_daily, List.filter_append, h, filter_eq_after_filter_ne, List.filter_cons]

/-- C4: For every catalog row with a parseable title and release date, the
title is included in the run if and only if
release_date − 30 days ≤ today ≤ release_date + 30 days, inclusive at both
ends: release_date = today − 30 is included, today − 31 is excluded, and
symmetrically for +30/+31. -/
theorem catalog_window_inclusion (today : Int) (st : CatState) (r : CatRow) (d : Int)
    (ht : pyStrip r.title ≠ "") (hd : r.date = some d)
    (hs : norm_title_key (pyStrip r.title) ∉ st.seen) :
    (((catalog_step today st r).movies =
        st.movies ++
          [⟨pyStrip r.title, norm_title_key (pyStrip r.title), d, pyStrip r.trailer⟩]) ↔
      (d - PAST_DAYS ≤ today ∧ today ≤ d + FUTURE_DAYS)) ∧
    (((catalog_step today st r).movies = st.movies) ↔
      ¬(d - PAST_DAYS ≤ today ∧ today ≤ d + FUTURE_DAYS)) ∧
    (window_ok today (today - 30) = true ∧ window_ok today (today - 31) = false ∧
     window_ok today (today + 30) = true ∧ window_ok today (today + 31) = false) := by
  have hw : window_ok today d = true ↔ (d - PAST_DAYS ≤ today ∧ today ≤ d + FUTURE_DAYS) := by
    simp [window_ok, PAST_DAYS, FUTURE_DAYS]
    omega
  have happ : st.movies ++
      [(⟨pyStrip r.title, norm_title_key (pyStrip r.title), d, pyStrip r.trailer⟩ : Movie)] ≠
      st.movies := by
    intro h
    simpa using congrArg List.length h
  have hstep_pos : window_ok today d = true →
      (catalog_step today st r).movies =
        st.movies ++
          [⟨pyStrip r.title, norm_title_key (pyStrip r.title), d, pyStrip r.trailer⟩] := by
    intro hwd
    simp [catalog_step, ht, hd, hwd, hs]
  have hstep_neg : window_ok today d = false →
      (catalog_step today st r).movies = st.movies := by
    intro hwf
    simp [catalog_step, ht, hd, hwf, hs]
  have hbool : window_ok today d = true ∨ window_ok today d = false := by
    cases window_ok today d
    · exact Or.inr rfl
    · exact Or.inl rfl
  refine ⟨⟨fun hEq => ?_, fun hrhs => hstep_pos (hw.mpr hrhs)⟩,
          ⟨fun hEq hrhs => ?_, fun hrhs => ?_⟩, ?_⟩
  · rcases hbool with hb | hb
    · exact hw.mp hb
    · rw [hstep_neg hb] at hEq
      exact absurd hEq.symm happ
  · rw [hstep_pos (hw.mpr hrhs)] at hEq
    exact happ hEq
  · rcases hbool with hb | hb
    · exact absurd (hw.mp hb) hrhs
    · exact hstep_neg hb
  · refine ⟨?_, ?_, ?_, ?_⟩ <;> simp [window_ok, PAST_DAYS, FUTURE_DAYS] <;> omega

/-- Discarding a first filter pass that keeps everything the second keeps. -/
lemma filter_of_filter_imp {α : Type} {p q : α → Bool} (h : ∀ a, q a = true → p a = true)
    (l : List α) : (l.filter p).filter q = l.filter q := by
  induction l with
  | nil => rfl
  | cons a t ih =>
    cases hp : p a
    · cases hq : q a
      · simp [List.filter_cons, hp, hq, ih]
      · exact absurd (h a hq) (by simp [hp])
    · simp [List.filter_cons, hp, ih]

/-- Shape of the database produced by one movie iteration: two upserts, both
dated today. -/
lemma process_movie_fst (cfg : Config) (today : Int) (db : DB) (m : Movie)
    (o : Outcomes) :
    ∃ rT rX, (process_movie cfg today db m o).1 =
        upsert_x_daily (upsert_trailer_daily db rT) rX ∧
      rT.date = today ∧ rX.date = today := by
  refine ⟨_, _, rfl, rfl, rfl⟩

/-- The database component of the run fold ignores the record accumulator. -/
lemma run_main_fst (cfg : Config) (today : Int) :
    ∀ (inputs : List (Movie × Outcomes)) (db : DB) (es : List Enriched),
      (inputs.foldl (fun acc mo =>
          let r := process_movie cfg today acc.1 mo.1 mo.2
          (r.1, acc.2 ++ [r.2])) (db, es)).1 =
      inputs.foldl (fun dbAcc mo => (process_movie cfg today dbAcc mo.1 mo.2).1) db := by
  intro inputs
  induction inputs with
  | nil => intro db es; rfl
  | cons mo rest ih => intro db es; exact ih _ _

/-- C5: Every write performed by a run against either snapshot table uses the
run current date as the date key, so rows keyed by any earlier date are never
modified or deleted by any operation: snapshots are immutable once the day
rolls over, and only today row is mutable within a run. -/
theorem run_writes_only_today (cfg : Config) (today : Int)
    (inputs : List (Movie × Outcomes)) (db : DB) :
    ((run_main cfg today inputs db).1.trailer.filter fun r => decide (r.date ≠ today)) =
      (db.trailer.filter fun r => decide (r.date ≠ today)) ∧
    ((run_main cfg today inputs db).1.x.filter fun r => decide (r.date ≠ today)) =
      (db.x.filter fun r => decide (r.date ≠ today)) := by
  have hT : ∀ (dbx : DB) (row : TrailerRow), row.date = today →
      ((upsert_trailer_daily dbx row).trailer.filter fun r => decide (r.date ≠ today)) =
        dbx.trailer.filter fun r => decide (r.date ≠ today) := by
    intro dbx row hrow
    show ((dbx.trailer.filter fun s => decide (trailerKey s ≠ trailerKey row)) ++
        [row]).filter (fun r => decide (r.date ≠ today)) = _
    rw [List.filter_append]
    have hrow_drop : ([row].filter fun r => decide (r.date ≠ today)) = [] := by
      simp [List.filter_cons, hrow]
    rw [hrow_drop, List.append_nil]
    apply filter_of_filter_imp
    intro a ha
    have hda : a.date ≠ today := by simpa using ha
    have hk : trailerKey a ≠ trailerKey row := by
      intro hk
      exact hda (by rw [show a.date = row.date from congrArg Prod.fst hk, hrow])
    simpa using hk
  have hX : ∀ (dbx : DB) (row : XRow), row.date = today →
      ((upsert_x_daily dbx row).x.filter fun r => decide (r.date ≠ today)) =
        dbx.x.filter fun r => decide (r.date ≠ today) := by
    intro dbx row hrow
    show ((dbx.x.filter fun s => decide (xKey s ≠ xKey row)) ++
        [row]).filter (fun r => decide (r.date ≠ today)) = _
    rw [List.filter_append]
    have hrow_drop : ([row].filter fun r => decide (r.date ≠ today)) = [] := by
      simp [List.filter_cons, hrow]
    rw [hrow_drop, List.append_nil]
    apply filter_of_filter_imp
    intro a ha
    have hda : a.date ≠ today := by simpa using ha
    have hk : xKey a ≠ xKey row := by
      intro hk
      exact hda (by rw [show a.date = row.date from congrArg Prod.fst hk, hrow])
    simpa using hk
  have hstep : ∀ (dbx : DB) (m : Movie) (o : Outcomes),
      (((process_movie cfg today dbx m o).1.trailer.filter
          fun r => decide (r.date ≠ today)) =
        dbx.trailer.filter fun r => decide (r.date ≠ today)) ∧
      (((process_movie cfg today dbx m o).1.x.filter
          fun r => decide (r.date ≠ today)) =
        dbx.x.filter fun r => decide (r.date ≠ today)) := by
    intro dbx m o
    obtain ⟨rT, rX, heq, hdT, hdX⟩ := process_movie_fst cfg today dbx m o
    rw [heq]
    constructor
    · rw [show (upsert_x_daily (upsert_trailer_daily dbx rT) rX).trailer =
          (upsert_trailer_daily dbx rT).trailer from rfl]
      exact hT _ _ hdT
    · rw [hX _ _ hdX]
      rfl
  have hfold : ∀ (l : List (Movie × Outcomes)) (dbx : DB),
      (((l.foldl (fun dAcc mo => (process_movie cfg today dAcc mo.1 mo.2).1)
          dbx).trailer.filter fun r => decide (r.date ≠ today)) =
        dbx.trailer.filter fun r => decide (r.date ≠ today)) ∧
      (((l.foldl (fun dAcc mo => (process_movie cfg today dAcc mo.1 mo.2).1)
          dbx).x.filter fun r => decide (r.date ≠ today)) =
        dbx.x.filter fun r => decide (r.date ≠ today)) := by
    intro l
    induction l with
    | nil => intro dbx; exact ⟨rfl, rfl⟩
    | cons mo rest ih =>
      intro dbx
      refine ⟨((ih _).1).trans (hstep dbx mo.1 mo.2).1,
              ((ih _).2).trans (hstep dbx mo.1 mo.2).2⟩
  rw [show (run_main cfg today inputs db).1 =
      inputs.foldl (fun dAcc mo => (process_movie cfg today dAcc mo.1 mo.2).1) db
    from run_main_fst cfg today inputs db []]
  exact hfold inputs db

/-- Shape of the x_daily row written by one movie iteration: today date, the
movie key and title, and the adapter result fields. -/
lemma process_movie_x_row (cfg : Config) (today : Int) (dbx : DB) (m : Movie)
    (o : Outcomes) :
    ∃ rT, (process_movie cfg today dbx m o).1 =
      upsert_x_daily (upsert_trailer_daily dbx rT)
        ⟨today, m.title_key, m.title,
         (x_metrics cfg.x_bearer_token m.title o.x).posts_7d,
         (x_metrics cfg.x_bearer_token m.title o.x).eng_7d,
         (x_metrics cfg.x_bearer_token m.title o.x).err⟩ := ⟨_, rfl⟩

/-- The run fold emits exactly one record per input movie, in order, carrying
that movie title. -/
lemma run_main_snd_map_title (cfg : Config) (today : Int) :
    ∀ (inputs : List (Movie × Outcomes)) (db : DB) (es : List Enriched),
      ((inputs.foldl (fun acc mo =>
          let r := process_movie cfg today acc.1 mo.1 mo.2
          (r.1, acc.2 ++ [r.2])) (db, es)).2.map (fun e => e.title)) =
        es.map (fun e => e.title) ++ inputs.map (fun mo => mo.1.title) := by
  intro inputs
  induction inputs with
  | nil => intro db es; simp
  | cons mo rest ih =>
    intro db es
    rw [show ((mo :: rest).foldl (fun acc mo =>
        let r := process_movie cfg today acc.1 mo.1 mo.2
        (r.1, acc.2 ++ [r.2])) (db, es)) = (rest.foldl (fun acc mo =>
        let r := process_movie cfg today acc.1 mo.1 mo.2
        (r.1, acc.2 ++ [r.2]))
        ((process_movie cfg today db mo.1 mo.2).1,
         es ++ [(process_movie cfg today db mo.1 mo.2).2])) from rfl]
    rw [ih]
    simp [show (process_movie cfg today db mo.1 mo.2).2.title = mo.1.title from rfl]

/-- C9: For every input, each metric adapter (youtube_stats, vimeo_stats,
x_metrics) returns a result record with optional values plus an optional
error tag and never raises to the caller, so one title adapter failure is
surfaced as an error tag on that title snapshot while every other title is
still processed and the run still produces a full report. -/
theorem adapters_never_raise_and_isolate (cfg : Config) (today : Int)
    (inputs : List (Movie × Outcomes)) (db : DB) (k bearer : Option String)
    (url t e : String) :
    (optFalsy k = false → is_youtube url = true →
      optFalsy (youtube_video_id url) = false →
      youtube_stats k url (.raised e) = ⟨none, none, none, some e⟩) ∧
    (is_vimeo url = true → (vimeo_id url).isSome →
      vimeo_stats url (.raised e) = ⟨none, none, none, some e⟩) ∧
    (optFalsy bearer = false → x_metrics bearer t (.raised e) = ⟨none, none, some e⟩) ∧
    ((run_main cfg today inputs db).2.map (fun r => r.title) =
      inputs.map (fun mo => mo.1.title)) ∧
    (∀ (m : Movie) (o : Outcomes) (dbx : DB), o.x = .raised e →
      optFalsy cfg.x_bearer_token = false →
      (⟨today, m.title_key, m.title, none, none, some e⟩ : XRow) ∈
        (process_movie cfg today dbx m o).1.x) := by
  refine ⟨?_, ?_, ?_, ?_, ?_⟩
  · intro hk hisyt hvid
    have hne : url ≠ "" := by
      intro h
      rw [h] at hisyt
      exact absurd hisyt (by decide)
    simp [youtube_stats, hne, hisyt, hk, hvid]
  · intro hisv hvid
    have hne : url ≠ "" := by
      intro h
      rw [h] at hisv
      exact absurd hisv (by decide)
    obtain ⟨vid, hvid2⟩ := Option.isSome_iff_exists.mp hvid
    simp [vimeo_stats, hne, hisv, hvid2]
  · intro hb
    simp [x_metrics, hb]
  · exact run_main_snd_map_title cfg today inputs db []
  · intro m o dbx hx hb
    have hxm : x_metrics cfg.x_bearer_token m.title o.x = ⟨none, none, some e⟩ := by
      rw [hx]
      simp [x_metrics, hb]
    obtain ⟨rT, hshape⟩ := process_movie_x_row cfg today dbx m o
    rw [hshape, hxm]
    simp [upsert_x_daily]

/-- C10: The 24-hour trailer delta is looked up under the exact key
(yesterday date, title_key, trailer_url): if no row exists for yesterday
with the same trailer URL string that the title has today, all trailer
deltas for that title are absent even when a trailer snapshot for the title
exists for yesterday under a different URL. -/
theorem trailer_delta_absent_without_exact_url (db : DB) (today : Int)
    (tk url_today : String) (stats : TrailerStats)
    (h : ∀ r ∈ db.trailer,
      ¬(r.date = today - 1 ∧ r.title_key = tk ∧ r.trailer_url = url_today)) :
    get_trailer_yesterday db today tk url_today = none ∧
    trailer_deltas stats (get_trailer_yesterday db today tk url_today) =
      (none, none, none) := by
  have hfind : db.trailer.find? (fun r =>
      decide (r.date = today - 1 ∧ r.title_key = tk ∧ r.trailer_url = url_today)) =
      none := by
    rw [List.find?_eq_none]
    intro a ha
    simpa using h a ha
  refine ⟨?_, ?_⟩
  · unfold get_trailer_yesterday
    rw [hfind]
    rfl
  · unfold get_trailer_yesterday
    rw [hfind]
    rfl

/-- C10 witness: concrete store holding a yesterday row under the old URL;
the lookup under the new URL misses and every delta is absent. -/
theorem trailer_delta_absent_without_exact_url_witness :
    get_trailer_yesterday
        ⟨[⟨99, "film", "https://youtu.be/OLD", "youtube", some 100, none, none, none⟩],
         []⟩ 100 "film" "https://youtu.be/NEW" = none ∧
    trailer_deltas ⟨some 120, none, none, none⟩
        (get_trailer_yesterday
          ⟨[⟨99, "film", "https://youtu.be/OLD", "youtube", some 100, none, none, none⟩],
           []⟩ 100 "film" "https://youtu.be/NEW") = (none, none, none) :=
  trailer_delta_absent_without_exact_url
    ⟨[⟨99, "film", "https://youtu.be/OLD", "youtube", some 100, none, none, none⟩], []⟩
    100 "film" "https://youtu.be/NEW" ⟨some 120, none, none, none⟩ (by decide)

/-- C6 counterexample: the per-title record assembled by `main` has no
`delta_since_baseline` field at all. -/
theorem enriched_record_no_baseline_field :
    "delta_since_baseline" ∉ enriched_record_fields := by decide

/-- C6 amended: the per-title record contains the identification fields, the
current metrics, the five 24-hour deltas, has_alert and a single joined
alert_reason string, but no delta_since_baseline mapping and no list-valued
alert_reasons field. -/
theorem enriched_record_fields_amended :
    "title" ∈ enriched_record_fields ∧ "title_key" ∈ enriched_record_fields ∧
    "release_date" ∈ enriched_record_fields ∧
    "views" ∈ enriched_record_fields ∧ "likes" ∈ enriched_record_fields ∧
    "comments" ∈ enriched_record_fields ∧
    "x_posts_7d" ∈ enriched_record_fields ∧ "x_eng_7d" ∈ enriched_record_fields ∧
    "views_change_24h" ∈ enriched_record_fields ∧
    "likes_change_24h" ∈ enriched_record_fields ∧
    "comments_change_24h" ∈ enriched_record_fields ∧
    "x_posts_change_24h" ∈ enriched_record_fields ∧
    "x_eng_change_24h" ∈ enriched_record_fields ∧
    "has_alert" ∈ enriched_record_fields ∧
    "alert_reason" ∈ enriched_record_fields ∧
    "delta_since_baseline" ∉ enriched_record_fields ∧
    "alert_reasons" ∉ enriched_record_fields := by decide

/-- C7 counterexample: with no YouTube API key and no X bearer token the
adapters return err = None — no explicit "not configured" tag is recorded. -/
theorem not_configured_err_tag_absent_cex :
    (youtube_stats none "https://youtu.be/abc" (.stats (some 1) (some 2) (some 3))).err =
      none ∧
    (x_metrics none "Película" (.tweets [⟨1, 1, 1, 1⟩])).err = none := by decide

/-- C7 amended: when a metric source is not configured the adapter result has
all metric values absent and the error tag absent as well (err = None, not a
"not configured" marker), and the run continues, producing one record per
title. -/
theorem not_configured_values_absent_run_continues :
    ∀ (url t : String) (yo : YtOutcome) (xo : XOutcome) (today : Int)
      (inputs : List (Movie × Outcomes)) (db : DB),
      youtube_stats none url yo = ⟨none, none, none, none⟩ ∧
      x_metrics none t xo = ⟨none, none, none⟩ ∧
      (run_main ⟨none, none⟩ today inputs db).2.length = inputs.length := by
  intro url t yo xo today inputs db
  refine ⟨?_, ?_, ?_⟩
  · simp [youtube_stats, optFalsy]
  · simp [x_metrics, optFalsy]
  · have h := run_main_snd_map_title ⟨none, none⟩ today inputs db []
    have h2 := congrArg List.length h
    simpa using h2

/-- C8 counterexample: norm_title_key keeps diacritics, diverging from the
spec folded form on "Árbol". -/
theorem title_key_preserves_diacritics_cex :
    norm_title_key "Árbol" ≠ spec_title_key "Árbol" ∧
    norm_title_key "Árbol" = "árbol" ∧ spec_title_key "Árbol" = "arbol" := by decide

/-- C8 amended: the derived title_key keeps only word characters, whitespace
and the accented letters áéíóúñü (other characters stripped), is lowercased
with whitespace collapsed, and preserves diacritics rather than folding
them; derivation is a pure function of the display title, hence stable. -/
theorem title_key_amended :
    ∀ s : String, (∀ c ∈ (norm_title_key s).data, isKept c = true) ∧
      norm_title_key "  El   Ñandú  VUELA! " = "el ñandú vuela" ∧
      norm_title_key "Árbol" = "árbol" := by
  intro s
  refine ⟨fun c hc => (List.mem_filter.mp hc).2, by decide, by decide⟩

/-- C3 witness: two same-key upserts with different payloads at a concrete
key collapse to the latest payload with exactly one row. -/
theorem upsert_last_write_wins_witness :
    upsert_trailer_daily (upsert_trailer_daily ⟨[], []⟩
        ⟨5, "k", "u", "youtube", some 1, none, none, none⟩)
        ⟨5, "k", "u", "youtube", some 9, none, none, none⟩ =
      upsert_trailer_daily ⟨[], []⟩ ⟨5, "k", "u", "youtube", some 9, none, none, none⟩ ∧
    ((upsert_trailer_daily (upsert_trailer_daily ⟨[], []⟩
        ⟨5, "k", "u", "youtube", some 1, none, none, none⟩)
        ⟨5, "k", "u", "youtube", some 9, none, none, none⟩).trailer.filter
      fun t => decide (trailerKey t =
        trailerKey ⟨5, "k", "u", "youtube", some 9, none, none, none⟩)) =
      [⟨5, "k", "u", "youtube", some 9, none, none, none⟩] ∧
    upsert_x_daily (upsert_x_daily ⟨[], []⟩ ⟨5, "k", "T", some 1, none, none⟩)
        ⟨5, "k", "T", some 2, none, none⟩ =
      upsert_x_daily ⟨[], []⟩ ⟨5, "k", "T", some 2, none, none⟩ := by
  have h := upsert_last_write_wins ⟨[], []⟩
    ⟨5, "k", "u", "youtube", some 1, none, none, none⟩
    ⟨5, "k", "u", "youtube", some 1, none, none, none⟩
    ⟨5, "k", "u", "youtube", some 9, none, none, none⟩
    ⟨5, "k", "T", some 1, none, none⟩
    ⟨5, "k", "T", some 1, none, none⟩
    ⟨5, "k", "T", some 2, none, none⟩
  exact ⟨(h.2.1 (by decide)).1, (h.2.1 (by decide)).2, (h.2.2.2 (by decide)).1⟩

/-- C4 witness: a concrete row 30 days in the past is included; the 31-day
boundary fails the window test. -/
theorem catalog_window_inclusion_witness :
    ((catalog_step 100 ⟨[], []⟩ ⟨"Hola", some 70, ""⟩).movies =
        [] ++ [⟨pyStrip "Hola", norm_title_key (pyStrip "Hola"), 70, pyStrip ""⟩]) ∧
    window_ok 100 (100 - 31) = false := by
  have h := catalog_window_inclusion 100 ⟨[], []⟩ ⟨"Hola", some 70, ""⟩ 70
    (by decide) rfl (by decide)
  exact ⟨h.1.mpr (by decide), h.2.2.2.1⟩

/-- C9 witness: a concrete two-title run where title A adapters raise and
title B succeeds still yields both records, and A error tag lands in the
snapshot row. -/
theorem adapters_never_raise_and_isolate_witness :
    youtube_stats (some "k") "https://youtu.be/abc" (.raised "boom") =
      ⟨none, none, none, some "boom"⟩ ∧
    ((run_main ⟨some "k", some "b"⟩ 100
        [(⟨"Film A", "film a", 100, "https://youtu.be/aaa"⟩,
          ⟨.raised "boom", .page none none, .raised "boom"⟩),
         (⟨"Film B", "film b", 101, "https://youtu.be/bbb"⟩,
          ⟨.stats (some 500) (some 10) (some 2), .page none none, .tweets []⟩)]
        ⟨[], []⟩).2.map (fun r => r.title) = ["Film A", "Film B"]) ∧
    (⟨100, "film a", "Film A", none, none, some "boom"⟩ : XRow) ∈
      (process_movie ⟨some "k", some "b"⟩ 100 ⟨[], []⟩
        ⟨"Film A", "film a", 100, "https://youtu.be/aaa"⟩
        ⟨.raised "boom", .page none none, .raised "boom"⟩).1.x := by
  have h := adapters_never_raise_and_isolate ⟨some "k", some "b"⟩ 100
    [(⟨"Film A", "film a", 100, "https://youtu.be/aaa"⟩,
      ⟨.raised "boom", .page none none, .raised "boom"⟩),
     (⟨"Film B", "film b", 101, "https://youtu.be/bbb"⟩,
      ⟨.stats (some 500) (some 10) (some 2), .page none none, .tweets []⟩)]
    ⟨[], []⟩ (some "k") (some "b") "https://youtu.be/abc" "T" "boom"
  exact ⟨h.1 (by decide) (by decide) (by decide), h.2.2.2.1,
    h.2.2.2.2 ⟨"Film A", "film a", 100, "https://youtu.be/aaa"⟩
      ⟨.raised "boom", .page none none, .raised "boom"⟩ ⟨[], []⟩ rfl (by decide)⟩

end MovieDash
